import Mathlib

/-!
Verification of the event-display HTTP receiver (cmd/event_display/main.go).

The embedding models the request-handling pipeline: an HTTP request value, a
response/log world threaded through handlers in state-passing style, the two
middleware (`healthzMiddleware`, `requestLoggingMiddleware`), the captured
request snapshot (`LoggableRequest`, `toReq`, `logRequest`), the display
formatter (`display`) and the tracing-startup phase of `run`.

Conventions: Go byte slices and Go strings are both modelled as `String`
(a Go string is exactly a byte sequence); a request body (`io.ReadCloser`)
is modelled by what a full `io.ReadAll` of it yields: the bytes it produces
(`content` — the partial prefix when the read fails) together with the error,
if any, that ends the read (`readErr`).  `log.Printf`/`log.Println` calls
are modelled by appending the emitted line to the world's `log` list.
-/

namespace EventDisplay

/-- Model of a Go `io.ReadCloser` request body: `content` is what
`io.ReadAll` yields from it (on a failing stream, the bytes read before the
failure), `readErr` the error that ends the read, if any. -/
structure BodyStream where
  content : String
  readErr : Option String
deriving DecidableEq

/-- Model of the fields of Go's `http.Request` that the program touches.
`url` models the `*url.URL` pointer (`none` = nil pointer). -/
structure Request where
  method : String
  url : Option String
  proto : String
  protoMajor : Nat
  protoMinor : Nat
  header : List (String × List String)
  body : BodyStream
  contentLength : Int
  transferEncoding : List String
  host : String
  trailer : List (String × List String)
  remoteAddr : String
  requestURI : String
deriving DecidableEq

/-- The observable response state written through `http.ResponseWriter`. -/
structure Response where
  status : Option Nat
  body : String
deriving DecidableEq

/-- The observable per-request world: the response under construction and
the process log (lines emitted through the `log` package). -/
structure World where
  resp : Response
  log : List String
deriving DecidableEq

/-- A Go `http.Handler`, in state-passing style. -/
abbrev Handler := Request → World → World

/-- `http.StatusNoContent`. -/
def statusNoContent : Nat := 204

/-- HTTP path of the health endpoint used for probing the service
(const `healthzPath` in main.go). -/
def healthzPath : String := "/healthz"

/-- Embeds `healthzMiddleware` (main.go): exposes a health endpoint.
`if req.RequestURI == healthzPath { w.WriteHeader(http.StatusNoContent) }
else { next.ServeHTTP(w, req) }`. -/
def healthzMiddleware (next : Handler) : Handler := fun req w =>
  if req.requestURI = healthzPath then
    { w with resp := { w.resp with status := some statusNoContent } }
  else
    next req w

/-- Embeds the struct `LoggableRequest` (main.go).  Its JSON tags carry
`omitempty` on every field except `RemoteAddr` (tag `remoteAddr`) and
`RequestURI` (tag `requestURI`). -/
structure LoggableRequest where
  method : String
  url : Option String
  proto : String
  protoMajor : Nat
  protoMinor : Nat
  header : List (String × List String)
  body : String
  contentLength : Int
  transferEncoding : List String
  host : String
  trailer : List (String × List String)
  remoteAddr : String
  requestURI : String
deriving DecidableEq

/-- Embeds `toReq` (main.go): reads the whole body (`io.ReadAll`), logs
"failed to read request body" on a read error, closes the old body and
replaces it with `io.NopCloser(bytes.NewBuffer(body))` — a fresh erring-free
stream over exactly the bytes that were read — and builds the
`LoggableRequest` from the request's fields.  Returns (snapshot, the request
after the body replacement, the log lines emitted). -/
def toReq (req : Request) : LoggableRequest × Request × List String :=
  let body := req.body.content
  let req2 : Request := { req with body := { content := body, readErr := none } }
  ( { method := req2.method
      url := req2.url
      proto := req2.proto
      protoMajor := req2.protoMajor
      protoMinor := req2.protoMinor
      header := req2.header
      body := body
      contentLength := req2.contentLength
      transferEncoding := req2.transferEncoding
      host := req2.host
      trailer := req2.trailer
      remoteAddr := req2.remoteAddr
      requestURI := req2.requestURI },
    req2,
    match req.body.readErr with
    | some _ => ["failed to read request body"]
    | none => [] )

/-- JSON rendering of a string value (escaping of exotic characters elided,
as no claim depends on it). -/
def renderJsonString (s : String) : String := "\"" ++ s ++ "\""

/-- JSON rendering of a `[]string` value. -/
def renderStringList (xs : List String) : String :=
  "[" ++ String.intercalate "," (xs.map renderJsonString) ++ "]"

/-- JSON rendering of an `http.Header` (map from name to value list). -/
def renderHeaderMap (h : List (String × List String)) : String :=
  "\x7b" ++
    String.intercalate ","
      (h.map fun kv => renderJsonString kv.1 ++ ":" ++ renderStringList kv.2) ++
  "\x7d"

/-- The key/rendered-value pairs `encoding/json` emits for a
`LoggableRequest`, in struct order, honouring each field's tag: a field
tagged `omitempty` is dropped when its value is empty or zero (empty string,
nil pointer, zero int, empty map/slice); `remoteAddr` and `requestURI`
carry no `omitempty` and are always emitted. -/
def loggableFields (r : LoggableRequest) : List (String × String) :=
  (if r.method = "" then [] else [("method", renderJsonString r.method)]) ++
  (match r.url with
   | some u => [("URL", renderJsonString u)]
   | none => []) ++
  (if r.proto = "" then [] else [("proto", renderJsonString r.proto)]) ++
  (if r.protoMajor = 0 then [] else [("protoMajor", toString r.protoMajor)]) ++
  (if r.protoMinor = 0 then [] else [("protoMinor", toString r.protoMinor)]) ++
  (if r.header = [] then [] else [("headers", renderHeaderMap r.header)]) ++
  (if r.body = "" then [] else [("body", renderJsonString r.body)]) ++
  (if r.contentLength = 0 then [] else [("contentLength", toString r.contentLength)]) ++
  (if r.transferEncoding = [] then []
   else [("transferEncoding", renderStringList r.transferEncoding)]) ++
  (if r.host = "" then [] else [("host", renderJsonString r.host)]) ++
  (if r.trailer = [] then [] else [("trailer", renderHeaderMap r.trailer)]) ++
  [("remoteAddr", renderJsonString r.remoteAddr),
   ("requestURI", renderJsonString r.requestURI)]

/-- The indented rendering `json.MarshalIndent(lr, "", "  ")` produces, built
from `loggableFields`. -/
def renderLoggable (r : LoggableRequest) : String :=
  "\x7b\n" ++
    String.intercalate ",\n"
      ((loggableFields r).map fun kv =>
        "  " ++ renderJsonString kv.1 ++ ": " ++ kv.2) ++
  "\n\x7d"

/-- `json.MarshalIndent` applied to a `LoggableRequest` never fails in Go
(every field type is marshalable), so the concrete marshaller always
succeeds; theorems about the error path quantify over an arbitrary
marshaller instead. -/
def jsonMarshalIndent (r : LoggableRequest) : Except String String :=
  .ok (renderLoggable r)

/-- Embeds `logRequest` (main.go), parametrised by the marshaller:
`b, err := json.MarshalIndent(toReq(req), "", "  ")`; on error it logs
"failed to marshal request <err>" (and `string(b)` is then the empty
string); it always logs `string(b)`.  Returns (the request after `toReq`'s
body replacement, the log lines emitted). -/
def logRequestWith (marshal : LoggableRequest → Except String String)
    (req : Request) : Request × List String :=
  ((toReq req).2.1,
    (toReq req).2.2 ++
      match marshal (toReq req).1 with
      | .error e => ["failed to marshal request " ++ e, ""]
      | .ok b => [b])

/-- `logRequest` with the real marshaller. -/
def logRequest : Request → Request × List String :=
  logRequestWith jsonMarshalIndent

/-- Embeds `requestLoggingMiddleware` (main.go), parametrised by the
marshaller: `if enabled { logRequest(req) }; next.ServeHTTP(w, req)`. -/
def requestLoggingMiddlewareWith (marshal : LoggableRequest → Except String String)
    (enabled : Bool) (next : Handler) : Handler := fun req w =>
  if enabled then
    next (logRequestWith marshal req).1
      { w with log := w.log ++ (logRequestWith marshal req).2 }
  else
    next req w

/-- `requestLoggingMiddleware` with the real marshaller. -/
def requestLoggingMiddleware (enabled : Bool) : Handler → Handler :=
  requestLoggingMiddlewareWith jsonMarshalIndent enabled

/-- Modelled from the spec: the middleware chain composer (the transport's
option machinery, not under src/; `run` only supplies the two middleware)
"wraps a base handler ... health filter outermost, request logger innermost
before the base handler". -/
def composedChain (enabled : Bool) (base : Handler) : Handler :=
  healthzMiddleware (requestLoggingMiddleware enabled base)

/-! ### The display formatter -/

/-- A scalar extension-attribute value (string | number | boolean), per the
data model of extension attributes. -/
inductive ExtVal where
  | str (s : String)
  | int (n : Int)
  | bool (b : Bool)
deriving DecidableEq

/-- JSON rendering of a scalar extension value. -/
def ExtVal.render : ExtVal → String
  | .str s => "\"" ++ s ++ "\""
  | .int n => toString n
  | .bool b => if b then "true" else "false"

/-- The JSON object encoding of a string-keyed map of scalars. -/
def renderJsonObj (fields : List (String × ExtVal)) : String :=
  "\x7b" ++
    String.intercalate ","
      (fields.map fun kv => "\"" ++ kv.1 ++ "\":" ++ kv.2.render) ++
  "\x7d"

/-- Modelled from the spec: `json.Marshal(event.Context.GetExtensions())` —
both calls are library code not under src/ — yields "a valid JSON encoding
of its extension map (possibly `\x7b\x7d` if none)". -/
def marshalExtensions (exts : List (String × ExtVal)) : String :=
  renderJsonObj exts

/-- Model of a decoded CloudEvent as `display` consumes it: the raw encoded
payload (`event.DataEncoded`), the type attribute (`event.Context.GetType()`)
and the extension-attribute map (`event.Context.GetExtensions()`). -/
structure Event where
  dataEncoded : String
  eventType : String
  extensions : List (String × ExtVal)
deriving DecidableEq

/-- The line `display`'s `log.Printf` format string produces from its three
`%s` arguments: `\x7b"data": %s, "type": %s, "extensions": %s\x7d`. -/
def displayLine (dataStr typeStr extStr : String) : String :=
  "\x7b\"data\": " ++ dataStr ++ ", \"type\": " ++ typeStr ++
    ", \"extensions\": " ++ extStr ++ "\x7d"

/-- Embeds `display` (main.go), parametrised by the extension marshaller
(which returns bytes and an error): `jsonstr, _ := json.Marshal(...)` — the
error is discarded — then one `log.Printf` call.  Returns the log lines
emitted. -/
def displayWith (marshal : List (String × ExtVal) → String × Option String)
    (event : Event) : List String :=
  [displayLine event.dataEncoded event.eventType (marshal event.extensions).1]

/-- `display` with the real extension marshaller (which does not fail). -/
def display (event : Event) : List String :=
  displayWith (fun exts => (marshalExtensions exts, none)) event

/-! ### Tracing startup (the tail of `run`) -/

/-- A tracing configuration as `run` threads it: either the no-op default or
one decoded from the `K_CONFIG_TRACING` JSON blob. -/
inductive TracingConfig where
  | noop
  | fromEnv (raw : String)
deriving DecidableEq

/-- Modelled from the spec: `config.JSONToTracingConfig` (library code not
under src/) — "a key-value configuration object parsed from an
environment-supplied JSON blob; if parsing fails, a no-op configuration is
substituted".  The underlying parse outcome is the argument; the function
yields the (config, error) pair the caller sees. -/
def jsonToTracingConfig : Except String TracingConfig → TracingConfig × Option String
  | .ok c => (c, none)
  | .error e => (.noop, some e)

/-- Outcome of the startup tail of `run`: either `log.Fatal`/`log.Fatalf`
was reached (the cause is logged and the process exits with a non-zero
status, never reaching `StartReceiver`), or startup reached
`c.StartReceiver(ctx, display)`. -/
inductive RunResult where
  | fatalExit (logs : List String)
  | receiverStarted (logs : List String)
deriving DecidableEq

/-- The warning `run` logs on a tracing-config read failure. -/
def tracingConfigWarning (e : String) : String :=
  "Failed to read tracing config, using the no-op default: " ++ e

/-- The fatal line `run` logs on a tracer-construction failure. -/
def tracingFatal (e : String) : String :=
  "Failed to initialize tracing: " ++ e

/-- Embeds the tracing phase of `run` (main.go): `conf, err :=
config.JSONToTracingConfig(...)`; on error only a warning is logged;
`tracer, err := tracing.SetupPublishingWithStaticConfig(..., conf)`; on
error `log.Fatalf` ends the process; otherwise the receiver is started.
`parsed` is what `jsonToTracingConfig` returned, `setup` the
tracer-construction collaborator. -/
def runTracingStartup (parsed : TracingConfig × Option String)
    (setup : TracingConfig → Except String Unit) : RunResult :=
  let warns : List String :=
    match parsed.2 with
    | some e => [tracingConfigWarning e]
    | none => []
  match setup parsed.1 with
  | .error e => .fatalExit (warns ++ [tracingFatal e])
  | .ok _ => .receiverStarted warns

/-! ### Concrete sample inputs (used by the witness theorems) -/

/-- A healthy sample body. -/
def sampleBody : BodyStream := { content := "\x7b\"id\": 2\x7d", readErr := none }

/-- A body whose read fails after yielding a partial prefix. -/
def failingBody : BodyStream := { content := "par", readErr := some "unexpected EOF" }

/-- A plain event-delivery request. -/
def sampleRequest : Request :=
  { method := "POST"
    url := some "/"
    proto := "HTTP/1.1"
    protoMajor := 1
    protoMinor := 1
    header := [("Content-Type", ["application/json"])]
    body := sampleBody
    contentLength := 9
    transferEncoding := []
    host := "example.com"
    trailer := []
    remoteAddr := "10.0.0.1:1234"
    requestURI := "/" }

/-- A probe request aimed at the health path. -/
def probeRequest : Request := { sampleRequest with requestURI := "/healthz" }

/-- A request whose target is the health path followed by a query string. -/
def queryProbeRequest : Request := { sampleRequest with requestURI := "/healthz?probe=1" }

/-- A request whose target is the health path with a trailing slash. -/
def slashProbeRequest : Request := { sampleRequest with requestURI := "/healthz/" }

/-- A request whose body read fails partway. -/
def failingBodyRequest : Request := { sampleRequest with body := failingBody }

/-- The world before any handler runs: empty response, empty log. -/
def emptyWorld : World := { resp := { status := none, body := "" }, log := [] }

/-- A base handler that marks its invocation in the response and the log. -/
def recordingBase : Handler := fun req w =>
  { resp := { status := some 200, body := req.body.content }
    log := w.log ++ ["base:" ++ req.body.content] }

/-- A marshaller that always fails. -/
def failingMarshal : LoggableRequest → Except String String :=
  fun _ => .error "boom"

/-- A tracer construction that succeeds. -/
def setupOk : TracingConfig → Except String Unit := fun _ => .ok ()

/-- A tracer construction that fails. -/
def setupFail : TracingConfig → Except String Unit := fun _ => .error "no exporter"

/-- A sample event with extensions. -/
def sampleEvent : Event :=
  { dataEncoded := "\x7b\"id\": 2\x7d"
    eventType := "sample.created"
    extensions := [("priority", .int 1)] }

/-- A sample event without extensions. -/
def plainEvent : Event :=
  { dataEncoded := "\x7b\"id\": 2\x7d"
    eventType := "sample.created"
    extensions := [] }

/-- The all-empty snapshot. -/
def emptySnapshot : LoggableRequest :=
  { method := ""
    url := none
    proto := ""
    protoMajor := 0
    protoMinor := 0
    header := []
    body := ""
    contentLength := 0
    transferEncoding := []
    host := ""
    trailer := []
    remoteAddr := ""
    requestURI := "" }

/-! ### Helper lemma -/

/-- Membership of a key among the keys contributed by one `omitempty`
segment of `loggableFields`. -/
theorem mem_keys_of_ite (c : Prop) [Decidable c] (k k2 v : String) :
    k ∈ ((if c then ([] : List (String × String)) else [(k2, v)]).map Prod.fst) ↔
      ¬c ∧ k = k2 := by
  split <;> simp_all

/-! ### The claims -/

/-- C1: the composed chain has the health filter outermost and the request
logger innermost before the base handler, so a request whose target is the
health path is answered 204 with the log untouched — the request logger is
never invoked, whatever `enabled` is — and every other request flows to the
request logger and then the base handler. -/
theorem chain_order_probe_skips_logger_c1
    (enabled : Bool) (base : Handler) (req : Request) (w : World) :
    composedChain enabled base
      = healthzMiddleware (requestLoggingMiddleware enabled base) ∧
    (req.requestURI = healthzPath →
      composedChain enabled base req w
        = { w with resp := { w.resp with status := some statusNoContent } }) ∧
    (req.requestURI ≠ healthzPath →
      composedChain enabled base req w
        = requestLoggingMiddleware enabled base req w) := by
  refine ⟨rfl, fun h => ?_, fun h => ?_⟩ <;> simp [composedChain, healthzMiddleware, h]

/-- C1 witness: with logging enabled, the concrete probe request is answered
204 with nothing logged, and the concrete event request reaches the logger
stage. -/
theorem chain_order_probe_skips_logger_c1_w :
    composedChain true recordingBase probeRequest emptyWorld
      = { emptyWorld with resp := { emptyWorld.resp with status := some statusNoContent } } ∧
    composedChain true recordingBase sampleRequest emptyWorld
      = requestLoggingMiddleware true recordingBase sampleRequest emptyWorld :=
  ⟨(chain_order_probe_skips_logger_c1 true recordingBase probeRequest emptyWorld).2.1 rfl,
   (chain_order_probe_skips_logger_c1 true recordingBase sampleRequest emptyWorld).2.2
     (by decide)⟩

/-- C2: a request whose raw target equals the health path gets status
"no content" (204) with nothing written to the response body and the next
handler never invoked (the result does not depend on it), whatever the
method or body; any other request is passed to `next` with request and
world unchanged. -/
theorem healthz_probe_short_circuit_c2 (next : Handler) (req : Request) (w : World) :
    (req.requestURI = healthzPath →
      ∀ next2 : Handler, healthzMiddleware next2 req w
        = { w with resp := { w.resp with status := some statusNoContent } }) ∧
    (req.requestURI ≠ healthzPath →
      healthzMiddleware next req w = next req w) := by
  refine ⟨fun h next2 => ?_, fun h => ?_⟩ <;> simp [healthzMiddleware, h]

/-- C2 witness: at the concrete probe and non-probe requests. -/
theorem healthz_probe_short_circuit_c2_w :
    healthzMiddleware recordingBase probeRequest emptyWorld
      = { emptyWorld with resp := { emptyWorld.resp with status := some statusNoContent } } ∧
    healthzMiddleware recordingBase sampleRequest emptyWorld
      = recordingBase sampleRequest emptyWorld :=
  ⟨(healthz_probe_short_circuit_c2 recordingBase probeRequest emptyWorld).1 rfl recordingBase,
   (healthz_probe_short_circuit_c2 recordingBase sampleRequest emptyWorld).2 (by decide)⟩

/-- C3: with request logging disabled, the middleware is observably the
identity transformation on handlers: it returns a handler equal to `next`,
so no snapshot log line is emitted and the base handler sees the request —
body included — unchanged. -/
theorem request_logging_disabled_identity_c3 (next : Handler) :
    requestLoggingMiddleware false next = next ∧
    (∀ req w, requestLoggingMiddleware false next req w = next req w) :=
  ⟨rfl, fun _ _ => rfl⟩

/-- C4: with request logging enabled, the logger reads the whole body,
captures the snapshot, and replaces the request's body with a fresh stream
over the captured bytes, so the base handler receives a request whose body
is byte-identical to the original. -/
theorem request_logging_enabled_roundtrip_c4 (next : Handler) (req : Request) (w : World) :
    (logRequest req).1
      = { req with body := { content := req.body.content, readErr := none } } ∧
    (logRequest req).1.body.content = req.body.content ∧
    requestLoggingMiddleware true next req w
      = next (logRequest req).1 { w with log := w.log ++ (logRequest req).2 } :=
  ⟨rfl, rfl, rfl⟩

/-- C5: with request logging enabled, a body-read failure or a
snapshot-serialization failure is logged as a warning and does not abort
the request: the chain still proceeds to the next handler with the body
content that was read. -/
theorem request_logging_failures_nonfatal_c5
    (marshal : LoggableRequest → Except String String)
    (next : Handler) (req : Request) (w : World) :
    requestLoggingMiddlewareWith marshal true next req w
      = next (logRequestWith marshal req).1
          { w with log := w.log ++ (logRequestWith marshal req).2 } ∧
    (logRequestWith marshal req).1.body.content = req.body.content ∧
    (req.body.readErr.isSome →
      "failed to read request body" ∈ (logRequestWith marshal req).2) ∧
    (∀ e, marshal (toReq req).1 = .error e →
      ("failed to marshal request " ++ e) ∈ (logRequestWith marshal req).2) := by
  refine ⟨rfl, rfl, fun h => ?_, fun e h => ?_⟩
  · rcases hv : req.body.readErr with _ | v
    · simp [hv] at h
    · simp [logRequestWith, toReq, hv]
  · simp [logRequestWith, h]

/-- C5 witness: at a request whose body read fails partway and a marshaller
that fails, the chain still reaches the base handler and both warnings are
in the emitted lines. -/
theorem request_logging_failures_nonfatal_c5_w :
    requestLoggingMiddlewareWith failingMarshal true recordingBase failingBodyRequest emptyWorld
      = recordingBase (logRequestWith failingMarshal failingBodyRequest).1
          { emptyWorld with
            log := emptyWorld.log ++ (logRequestWith failingMarshal failingBodyRequest).2 } ∧
    "failed to read request body" ∈ (logRequestWith failingMarshal failingBodyRequest).2 ∧
    ("failed to marshal request " ++ "boom")
      ∈ (logRequestWith failingMarshal failingBodyRequest).2 :=
  ⟨(request_logging_failures_nonfatal_c5 failingMarshal recordingBase failingBodyRequest
      emptyWorld).1,
   (request_logging_failures_nonfatal_c5 failingMarshal recordingBase failingBodyRequest
      emptyWorld).2.2.1 rfl,
   (request_logging_failures_nonfatal_c5 failingMarshal recordingBase failingBodyRequest
      emptyWorld).2.2.2 "boom" rfl⟩

/-- C6: for every event, `display` emits exactly one log line, equal to the
format template filled with the raw payload echoed verbatim, the type
string verbatim, and the JSON object encoding of the extension map — which
is "\x7b\x7d" when the event has no extensions; and whatever the extension
marshaller does, exactly one line is still emitted. -/
theorem display_one_line_c6 (e : Event) :
    (display e).length = 1 ∧
    display e = [displayLine e.dataEncoded e.eventType (renderJsonObj e.extensions)] ∧
    (e.extensions = [] → marshalExtensions e.extensions = "\x7b\x7d") ∧
    (∀ marshal : List (String × ExtVal) → String × Option String,
      (displayWith marshal e).length = 1) := by
  refine ⟨rfl, rfl, fun h => ?_, fun marshal => rfl⟩
  rw [h]
  rfl

/-- C6 witness: at the concrete extension-free event. -/
theorem display_one_line_c6_w :
    (display plainEvent).length = 1 ∧
    marshalExtensions plainEvent.extensions = "\x7b\x7d" :=
  ⟨(display_one_line_c6 plainEvent).1, (display_one_line_c6 plainEvent).2.2.1 rfl⟩

/-- C7 counterexample: in the rendered snapshot of the all-empty
`LoggableRequest`, the keys "remoteAddr" and "requestURI" are still emitted
although both values are empty — so it is not true that every empty field,
remote address and request-target included, is omitted. -/
theorem omitempty_counterexample_c7 :
    emptySnapshot.remoteAddr = "" ∧
    emptySnapshot.requestURI = "" ∧
    "remoteAddr" ∈ (loggableFields emptySnapshot).map Prod.fst ∧
    "requestURI" ∈ (loggableFields emptySnapshot).map Prod.fst := by
  decide

/-- C7 amended: every `omitempty`-tagged field of the snapshot (all but
remote address and request-target) is omitted from the rendered form
exactly when its value is empty or zero, while "remoteAddr" and
"requestURI" are always emitted, empty or not. -/
theorem omitempty_amended_c7 (r : LoggableRequest) :
    "remoteAddr" ∈ (loggableFields r).map Prod.fst ∧
    "requestURI" ∈ (loggableFields r).map Prod.fst ∧
    (r.method = "" ↔ "method" ∉ (loggableFields r).map Prod.fst) ∧
    (r.url = none ↔ "URL" ∉ (loggableFields r).map Prod.fst) ∧
    (r.proto = "" ↔ "proto" ∉ (loggableFields r).map Prod.fst) ∧
    (r.protoMajor = 0 ↔ "protoMajor" ∉ (loggableFields r).map Prod.fst) ∧
    (r.protoMinor = 0 ↔ "protoMinor" ∉ (loggableFields r).map Prod.fst) ∧
    (r.header = [] ↔ "headers" ∉ (loggableFields r).map Prod.fst) ∧
    (r.body = "" ↔ "body" ∉ (loggableFields r).map Prod.fst) ∧
    (r.contentLength = 0 ↔ "contentLength" ∉ (loggableFields r).map Prod.fst) ∧
    (r.transferEncoding = [] ↔ "transferEncoding" ∉ (loggableFields r).map Prod.fst) ∧
    (r.host = "" ↔ "host" ∉ (loggableFields r).map Prod.fst) ∧
    (r.trailer = [] ↔ "trailer" ∉ (loggableFields r).map Prod.fst) := by
  rcases hu : r.url with _ | u <;> simp [loggableFields, hu, mem_keys_of_ite]

/-- C8: a tracing-configuration parse failure is non-fatal — the no-op
configuration is substituted, a warning is logged, and the receiver still
starts — while a tracer-construction failure is fatal: the cause is logged
and the process exits without starting the receiver. -/
theorem tracing_startup_policy_c8 (e : String)
    (setup : TracingConfig → Except String Unit) :
    jsonToTracingConfig (.error e) = (TracingConfig.noop, some e) ∧
    (setup TracingConfig.noop = .ok () →
      runTracingStartup (jsonToTracingConfig (.error e)) setup
        = .receiverStarted [tracingConfigWarning e]) ∧
    (∀ conf perr e2, setup conf = .error e2 →
      ∃ warns, runTracingStartup (conf, perr) setup
        = .fatalExit (warns ++ [tracingFatal e2])) := by
  refine ⟨rfl, fun h => ?_, fun conf perr e2 h => ?_⟩
  · simp [runTracingStartup, jsonToTracingConfig, h]
  · rcases perr with _ | e3
    · exact ⟨[], by simp [runTracingStartup, h]⟩
    · exact ⟨[tracingConfigWarning e3], by simp [runTracingStartup, h]⟩

/-- C8 witness: a concrete parse failure with a working tracer still starts
the receiver after one warning; a concrete tracer-construction failure ends
in a fatal exit with the cause logged. -/
theorem tracing_startup_policy_c8_w :
    runTracingStartup (jsonToTracingConfig (.error "invalid JSON")) setupOk
      = .receiverStarted [tracingConfigWarning "invalid JSON"] ∧
    (∃ warns, runTracingStartup (TracingConfig.noop, none) setupFail
      = .fatalExit (warns ++ [tracingFatal "no exporter"])) :=
  ⟨(tracing_startup_policy_c8 "invalid JSON" setupOk).2.1 rfl,
   (tracing_startup_policy_c8 "invalid JSON" setupFail).2.2
     TracingConfig.noop none "no exporter" rfl⟩

/-- C9: the health check is an exact string equality on the raw request
target: a target equal to the health path followed by a query string or a
trailing slash is not treated as a probe and is passed through to the next
handler. -/
theorem healthz_exact_equality_c9 (next : Handler) (req : Request) (w : World) :
    (req.requestURI = "/healthz?probe=1" →
      healthzMiddleware next req w = next req w) ∧
    (req.requestURI = "/healthz/" →
      healthzMiddleware next req w = next req w) ∧
    (req.requestURI ≠ healthzPath →
      healthzMiddleware next req w = next req w) := by
  refine ⟨fun h => ?_, fun h => ?_, fun h => ?_⟩
  · simp [healthzMiddleware, healthzPath, h]
  · simp [healthzMiddleware, healthzPath, h]
  · simp [healthzMiddleware, h]

/-- C9 witness: at the concrete query-string and trailing-slash targets. -/
theorem healthz_exact_equality_c9_w :
    healthzMiddleware recordingBase queryProbeRequest emptyWorld
      = recordingBase queryProbeRequest emptyWorld ∧
    healthzMiddleware recordingBase slashProbeRequest emptyWorld
      = recordingBase slashProbeRequest emptyWorld :=
  ⟨(healthz_exact_equality_c9 recordingBase queryProbeRequest emptyWorld).1 rfl,
   (healthz_exact_equality_c9 recordingBase slashProbeRequest emptyWorld).2.1 rfl⟩

/-- C10: capturing the snapshot mutates only the request's body — replaced
by a fresh error-free stream holding exactly the bytes the read yielded
(the partial prefix when the read failed) — leaves every other request
field unchanged, and the snapshot's body string equals the bytes in the
replacement stream. -/
theorem toReq_frame_c10 (req : Request) :
    (toReq req).2.1
      = { req with body := { content := req.body.content, readErr := none } } ∧
    (toReq req).2.1.method = req.method ∧
    (toReq req).2.1.url = req.url ∧
    (toReq req).2.1.proto = req.proto ∧
    (toReq req).2.1.protoMajor = req.protoMajor ∧
    (toReq req).2.1.protoMinor = req.protoMinor ∧
    (toReq req).2.1.header = req.header ∧
    (toReq req).2.1.contentLength = req.contentLength ∧
    (toReq req).2.1.transferEncoding = req.transferEncoding ∧
    (toReq req).2.1.host = req.host ∧
    (toReq req).2.1.trailer = req.trailer ∧
    (toReq req).2.1.remoteAddr = req.remoteAddr ∧
    (toReq req).2.1.requestURI = req.requestURI ∧
    (toReq req).1.body = (toReq req).2.1.body.content ∧
    (toReq req).1.body = req.body.content :=
  ⟨rfl, rfl, rfl, rfl, rfl, rfl, rfl, rfl, rfl, rfl, rfl, rfl, rfl, rfl, rfl⟩

end EventDisplay
